import Mathlib

/-!
Shallow embedding of the chillpill crate: the panic data record and its
payload helpers (src/panic_data.rs), the thread-local catch stack
(src/thread_local_catch_stack.rs), the global panic-hook state machine and
the chillpill panic hook (src/panic_hook.rs), and the catch entry points
(src/lib.rs), together with proofs about the boundary protocol.
-/

namespace Chillpill

/-- Source code location of a panic (src/panic_data.rs, PanicLocation).
The Rust u32 fields line and col are modelled as Nat; the crate never
performs arithmetic on them, so no wrap-around is involved. -/
structure PanicLocation where
  file : String
  line : Nat
  col : Nat
deriving DecidableEq

/-- Model of std::backtrace::Backtrace as the crate uses it: a
capture-or-disabled value. The provided sources only ever construct
disabled backtraces (Backtrace::disabled() in CatchStackFrame::new). -/
inductive Backtrace where
  | disabled
  | captured
deriving DecidableEq

/-- Model of the type-erased panic payload (Box of dyn Any). The two
downcasts the crate performs, to a str reference and to String, are
modelled as distinguished constructors; every other payload type is
collapsed to an opaque tag. -/
inductive Payload where
  | str (s : String)
  | string (s : String)
  | other (tag : Nat)
deriving DecidableEq

/-- Backtrace capture policy (src/thread_local_catch_stack.rs,
CaptureBacktrace). -/
inductive CaptureBacktrace where
  | Always
  | Default
  | Never
deriving DecidableEq

/-- One frame of the thread-local catch stack
(src/thread_local_catch_stack.rs, CatchStackFrame). -/
structure CatchStackFrame where
  capture_backtrace : CaptureBacktrace
  location : Option PanicLocation
  backtrace : Backtrace
deriving DecidableEq

/-- CatchStackFrame::new (src/thread_local_catch_stack.rs lines 75-83):
location starts None and backtrace starts disabled. -/
def CatchStackFrame.new (capture_backtrace : CaptureBacktrace) : CatchStackFrame :=
  { capture_backtrace := capture_backtrace, location := none, backtrace := .disabled }

/-- The panic data record returned on the failure path of a catch
(src/panic_data.rs, PanicData). -/
structure PanicData where
  payload : Payload
  location : Option PanicLocation
  backtrace : Backtrace
deriving DecidableEq

/-- Model of std::borrow::Cow over str: the borrowed constructor
corresponds to a successful str-reference downcast, the owned constructor
to a successful String downcast. -/
inductive Cow where
  | borrowed (s : String)
  | owned (s : String)
deriving DecidableEq

/-- PanicData::payload_as_string (src/panic_data.rs lines 48-61): try the
str-reference downcast, then the String downcast, otherwise None. The two
downcasts are disjoint, so the cascade is a three-way match here. -/
def PanicData.payload_as_string (d : PanicData) : Option String :=
  match d.payload with
  | .str s => some s
  | .string s => some s
  | .other _ => none

/-- PanicData::payload_into_string (src/panic_data.rs lines 68-93):
destructure the record, try the str-reference downcast (giving
Cow::Borrowed), then the String downcast (giving Cow::Owned), otherwise
rebuild the record from the same payload, location and backtrace and
return it as the error. -/
def PanicData.payload_into_string (d : PanicData) : Except PanicData Cow :=
  match d with
  | { payload := .str s, location := _, backtrace := _ } => .ok (.borrowed s)
  | { payload := .string s, location := _, backtrace := _ } => .ok (.owned s)
  | { payload := .other t, location := loc, backtrace := bt } =>
      .error { payload := .other t, location := loc, backtrace := bt }

/-- A value for the global panic hook slot: either the chillpill custom
hook or some unrelated hook identified by a tag. -/
inductive Hook where
  | chillpill
  | other (id : Nat)
deriving DecidableEq

/-- PanicHookStatus (src/panic_hook.rs lines 113-119). The field
threads_in_catch is a NonZeroUsize in the source; it is modelled as a Nat,
and the remove operation treats 0 as the unreachable case, exactly as the
source match does. -/
inductive PanicHookStatus where
  | NotReplaced
  | Replaced (previous_hook : Hook) (threads_in_catch : Nat)
deriving DecidableEq

/-- The process-global state relevant to the hook protocol: which hook is
currently registered via std::panic::set_hook, and the PANIC_HOOK_STATUS
value guarded by the mutex. -/
structure GlobalHookState where
  installed : Hook
  status : PanicHookStatus
deriving DecidableEq

/-- Maximum value of usize on the (64-bit) host platform. -/
def USIZE_MAX : Nat := 2 ^ 64 - 1

/-- NonZeroUsize::checked_add(1): None exactly when the increment would
overflow usize, the successor otherwise. -/
def checkedAddOne (n : Nat) : Option Nat :=
  if n + 1 ≤ USIZE_MAX then some (n + 1) else none

/-- add_chillpill_thread (src/panic_hook.rs lines 24-66). On NotReplaced it
captures the currently installed hook as previous_hook, installs the
chillpill hook and sets the thread count to 1; on Replaced it performs a
checked increment of the count, aborting the process (modelled as none) on
overflow instead of wrapping. -/
def add_chillpill_thread (g : GlobalHookState) : Option GlobalHookState :=
  match g.status with
  | .NotReplaced =>
      some { installed := .chillpill, status := .Replaced g.installed 1 }
  | .Replaced prev n =>
      match checkedAddOne n with
      | none => none
      | some m => some { g with status := .Replaced prev m }

/-- remove_chillpill_thread (src/panic_hook.rs lines 75-111). Panics
(modelled as none) if the hook is not currently replaced; when the last
counted thread leaves (count 1) it restores the captured previous hook and
returns the status to NotReplaced; otherwise it only decrements the count
and leaves the installed hook and the captured reference unchanged. -/
def remove_chillpill_thread (g : GlobalHookState) : Option GlobalHookState :=
  match g.status with
  | .NotReplaced => none
  | .Replaced prev n =>
      match n with
      | 0 => none
      | 1 => some { installed := prev, status := .NotReplaced }
      | m + 2 => some { g with status := .Replaced prev (m + 1) }

/-- The diagnostic info handed to a panic hook
(std::panic::PanicHookInfo): the panic payload and the reported source
location. -/
structure PanicHookInfo where
  payload : Payload
  location : Option PanicLocation
deriving DecidableEq

/-- Result of one invocation of the chillpill panic hook: the updated
thread-local catch stack of the panicking thread, and the info forwarded
to the previously captured hook when the hook delegated (none when it did
not delegate). -/
structure HookResult where
  stack : List CatchStackFrame
  delegated : Option PanicHookInfo
deriving DecidableEq

/-- chillpill_panic_hook (src/panic_hook.rs lines 121-147). The list head
is the top of the stack (Vec::last in the source). With an empty stack the
hook invokes the previously captured hook with the original info and
leaves the stack untouched; with a non-empty stack it stores the reported
location into the top frame, leaves every other frame unchanged, and does
not invoke the previous hook. Note that the source hook stores only the
location: it never captures a backtrace. -/
def chillpill_panic_hook (info : PanicHookInfo) : List CatchStackFrame → HookResult
  | [] => { stack := [], delegated := some info }
  | f :: rest =>
      { stack := { f with location := info.location } :: rest, delegated := none }

/-- Deep embedding of the closures run inside a boundary: return a value,
raise a hook-invoking panic with a reported location, raise a panic that
bypasses the hook (std::panic::resume_unwind), sequence two computations,
catch-and-discard with the raw std::panic::catch_unwind, or run a nested
chillpill catch whose result value is used as the value of the
expression (0 on its failure path). -/
inductive Comp where
  | ret (v : Nat)
  | raise (loc : Option PanicLocation) (payload : Payload)
  | raiseNoHook (payload : Payload)
  | seq (a b : Comp)
  | rawCatch (body : Comp)
  | chillCatch (policy : CaptureBacktrace) (body : Comp)

/-- Outcome of running a computation: a value, an escaping panic payload,
or the fatal expect failure inside catch_inner (proved unreachable
below). -/
inductive Outcome where
  | ok (v : Nat)
  | panicked (payload : Payload)
  | fatal
deriving DecidableEq

/-- Interpreter for Comp over the thread-local catch stack of the one
thread that owns it. A hook-invoking raise first runs
chillpill_panic_hook, mutating the stack, and then unwinds carrying its
payload; a nested chillCatch performs exactly the push, catch_unwind run,
and unconditional pop of catch_inner (src/lib.rs lines 131-167). -/
def run : Comp → List CatchStackFrame → List CatchStackFrame × Outcome
  | .ret v, s => (s, .ok v)
  | .raise loc p, s =>
      ((chillpill_panic_hook { payload := p, location := loc } s).stack, .panicked p)
  | .raiseNoHook p, s => (s, .panicked p)
  | .seq a b, s =>
      match run a s with
      | (s1, .ok _) => run b s1
      | (s1, .panicked p) => (s1, .panicked p)
      | (s1, .fatal) => (s1, .fatal)
  | .rawCatch body, s =>
      match run body s with
      | (s1, .ok v) => (s1, .ok v)
      | (s1, .panicked _) => (s1, .ok 0)
      | (s1, .fatal) => (s1, .fatal)
  | .chillCatch policy body, s =>
      match run body (CatchStackFrame.new policy :: s) with
      | ([], _) => ([], .fatal)
      | (_ :: rest, .ok v) => (rest, .ok v)
      | (_ :: rest, .panicked _) => (rest, .ok 0)
      | (_ :: rest, .fatal) => (rest, .fatal)

/-- catch_inner (src/lib.rs lines 131-167), with the hook-installation
step modelled separately (see install_if_not_installed): push a fresh
frame with the requested policy, run the closure under catch_unwind, pop
the frame unconditionally (none models the expect failure on an empty
stack, proved unreachable below), and if the closure panicked assemble
the PanicData from the intercepted payload together with the location and
backtrace fields of the popped frame. -/
def catch_inner (policy : CaptureBacktrace) (f : Comp) (s : List CatchStackFrame) :
    List CatchStackFrame × Option (Except PanicData Nat) :=
  match run f (CatchStackFrame.new policy :: s) with
  | ([], _) => ([], none)
  | (_ :: rest, .ok v) => (rest, some (.ok v))
  | (frame :: rest, .panicked p) =>
      (rest, some (.error
        { payload := p, location := frame.location, backtrace := frame.backtrace }))
  | (_ :: rest, .fatal) => (rest, none)

/-- chillpill::catch (src/lib.rs lines 97-99): the Default policy. The
source name catch is a Lean keyword, hence the suffix. -/
def catch_default (f : Comp) (s : List CatchStackFrame) :
    List CatchStackFrame × Option (Except PanicData Nat) :=
  catch_inner .Default f s

/-- chillpill::catch_force_backtrace (src/lib.rs lines 112-114): the
Always policy. -/
def catch_force_backtrace (f : Comp) (s : List CatchStackFrame) :
    List CatchStackFrame × Option (Except PanicData Nat) :=
  catch_inner .Always f s

/-- chillpill::catch_never_backtrace (src/lib.rs lines 127-129): the
Never policy. -/
def catch_never_backtrace (f : Comp) (s : List CatchStackFrame) :
    List CatchStackFrame × Option (Except PanicData Nat) :=
  catch_inner .Never f s

/-- Modelled from the spec: install_if_not_installed, the ensure-installed
operation called by catch_inner (src/lib.rs line 136), whose definition is
not among the provided sources (src/panic_hook.rs holds an older
add/remove_chillpill_thread interface instead). Per spec section 4.1 it
fails exactly when this is the globally first call and the calling thread
is already unwinding; after the one-time installation has happened, every
later call succeeds without re-checking the unwinding condition. The
argument alreadyInstalled is true iff some earlier call performed the
one-time installation. -/
def install_if_not_installed (alreadyInstalled unwinding : Bool) : Except Unit Unit :=
  if alreadyInstalled then .ok ()
  else if unwinding then .error ()
  else .ok ()

/-- Outcome of the entry step of a boundary call: either the boundary
itself raises a fresh panic (never returning a value), or it proceeds to
push a frame and run the closure. -/
inductive EntryOutcome where
  | raisedFault
  | proceeds
deriving DecidableEq

/-- Entry step of catch_inner (src/lib.rs lines 135-138): if
ensure-installed reports failure, the boundary panics with a fresh fault
instead of returning a failure value; otherwise it proceeds to the
push/run/pop protocol. -/
def catch_entry (alreadyInstalled unwinding : Bool) : EntryOutcome :=
  match install_if_not_installed alreadyInstalled unwinding with
  | .error _ => .raisedFault
  | .ok _ => .proceeds

/-- Two stacks are shape-equal when they have the same frames except that
the top frame may differ in its location field: same length, same policy
and backtrace on the top frame, and identical tails below the top. This
is the exact effect a boundary-enclosed computation can have on the
ambient stack. -/
def ShapeEq : List CatchStackFrame → List CatchStackFrame → Prop
  | [], [] => True
  | f :: r, g :: t =>
      f.capture_backtrace = g.capture_backtrace ∧ f.backtrace = g.backtrace ∧ r = t
  | _, _ => False

theorem shapeEq_refl : ∀ s : List CatchStackFrame, ShapeEq s s
  | [] => trivial
  | _ :: _ => ⟨rfl, rfl, rfl⟩

theorem shapeEq_trans {a b c : List CatchStackFrame}
    (h1 : ShapeEq a b) (h2 : ShapeEq b c) : ShapeEq a c := by
  cases a <;> cases b <;> cases c <;> simp_all [ShapeEq]

/-- A stack shape-equal to a non-empty stack is that stack with the top
frame location possibly replaced. -/
theorem shapeEq_cons_elim {x : List CatchStackFrame} {f : CatchStackFrame}
    {r : List CatchStackFrame} (h : ShapeEq x (f :: r)) :
    ∃ L, x = { capture_backtrace := f.capture_backtrace, location := L,
               backtrace := f.backtrace } :: r := by
  cases x with
  | nil => simp [ShapeEq] at h
  | cons g t =>
    obtain ⟨h1, h2, h3⟩ := h
    refine ⟨g.location, ?_⟩
    rw [h3]
    cases g
    simp_all

/-- Running any computation changes the ambient catch stack only in the
location field of its top frame, and never produces the fatal outcome. -/
theorem run_shape (c : Comp) : ∀ s : List CatchStackFrame,
    ShapeEq (run c s).1 s ∧ (run c s).2 ≠ .fatal := by
  induction c with
  | ret v =>
    intro s
    exact ⟨shapeEq_refl s, by simp [run]⟩
  | raise loc p =>
    intro s
    cases s with
    | nil => exact ⟨trivial, by simp [run]⟩
    | cons f r => exact ⟨⟨rfl, rfl, rfl⟩, by simp [run]⟩
  | raiseNoHook p =>
    intro s
    exact ⟨shapeEq_refl s, by simp [run]⟩
  | seq a b iha ihb =>
    intro s
    obtain ⟨ha1, ha2⟩ := iha s
    cases hr : run a s with
    | mk s1 o =>
      rw [hr] at ha1 ha2
      cases o with
      | ok v =>
        obtain ⟨hb1, hb2⟩ := ihb s1
        have he : run (.seq a b) s = run b s1 := by
          simp [run, hr]
        rw [he]
        exact ⟨shapeEq_trans hb1 ha1, hb2⟩
      | panicked p =>
        have he : run (.seq a b) s = (s1, .panicked p) := by
          simp [run, hr]
        rw [he]
        exact ⟨ha1, by simp⟩
      | fatal => simp at ha2
  | rawCatch body ih =>
    intro s
    obtain ⟨h1, h2⟩ := ih s
    cases hr : run body s with
    | mk s1 o =>
      rw [hr] at h1 h2
      cases o with
      | ok v =>
        have he : run (.rawCatch body) s = (s1, .ok v) := by
          simp [run, hr]
        rw [he]
        exact ⟨h1, by simp⟩
      | panicked p =>
        have he : run (.rawCatch body) s = (s1, .ok 0) := by
          simp [run, hr]
        rw [he]
        exact ⟨h1, by simp⟩
      | fatal => simp at h2
  | chillCatch policy body ih =>
    intro s
    obtain ⟨h1, h2⟩ := ih (CatchStackFrame.new policy :: s)
    cases hr : run body (CatchStackFrame.new policy :: s) with
    | mk s2 o =>
      rw [hr] at h1 h2
      cases s2 with
      | nil => simp [ShapeEq] at h1
      | cons x tail =>
        obtain ⟨hp, hb, ht⟩ := h1
        subst ht
        cases o with
        | ok v =>
          have he : run (.chillCatch policy body) tail = (tail, .ok v) := by
            simp [run, hr]
          rw [he]
          exact ⟨shapeEq_refl tail, by simp⟩
        | panicked p =>
          have he : run (.chillCatch policy body) tail = (tail, .ok 0) := by
            simp [run, hr]
          rw [he]
          exact ⟨shapeEq_refl tail, by simp⟩
        | fatal => simp at h2

/-- Claim C1, counterexample: the hook installation is not permanent. From
a state where an unrelated hook is installed, one add_chillpill_thread
installs the chillpill hook, and the matching remove_chillpill_thread at
the end of that boundary call restores the previously installed hook,
reverting the replacement. -/
theorem hook_reverted_after_last_remove :
    add_chillpill_thread { installed := .other 7, status := .NotReplaced } =
      some { installed := .chillpill, status := .Replaced (.other 7) 1 } ∧
    remove_chillpill_thread { installed := .chillpill, status := .Replaced (.other 7) 1 } =
      some { installed := .other 7, status := .NotReplaced } :=
  ⟨rfl, rfl⟩

/-- Claim C1, amended: hook replacement is reference-counted, not
permanent. Entering the first boundary captures the current hook and
installs the chillpill hook; leaving a boundary while other threads are
still counted keeps the installed hook and the captured previous-hook
reference unchanged; leaving the last counted boundary restores the
captured previous hook and returns the status to NotReplaced. -/
theorem hook_refcount_restore (h prev : Hook) (n : Nat) :
    add_chillpill_thread { installed := h, status := .NotReplaced } =
      some { installed := .chillpill, status := .Replaced h 1 } ∧
    remove_chillpill_thread { installed := h, status := .Replaced prev 1 } =
      some { installed := prev, status := .NotReplaced } ∧
    remove_chillpill_thread { installed := h, status := .Replaced prev (n + 2) } =
      some { installed := h, status := .Replaced prev (n + 1) } :=
  ⟨rfl, rfl, rfl⟩

/-- Claim C2, code evaluation at the failing input: catch_force_backtrace
on a panicking closure returns a record whose backtrace is disabled, not a
captured one, because the hook in src/panic_hook.rs only records the
location and never captures a backtrace, contradicting the Always
policy promised by the crate documentation. -/
theorem catch_force_backtrace_disabled :
    catch_force_backtrace
        (.raise (some { file := "main.rs", line := 10, col := 5 }) (.str "boom")) [] =
      ([], some (.error { payload := .str "boom",
                          location := some { file := "main.rs", line := 10, col := 5 },
                          backtrace := .disabled })) :=
  rfl

/-- Claim C3: the boundary raises a fresh fault exactly when
ensure-installed reports failure, ensure-installed fails exactly on the
globally first call from an already-unwinding thread, and once installed
every later call proceeds regardless of the unwinding state. -/
theorem first_call_while_unwinding (a u : Bool) :
    (catch_entry a u = .raisedFault ↔ install_if_not_installed a u = .error ()) ∧
    (install_if_not_installed a u = .error () ↔ (a = false ∧ u = true)) ∧
    catch_entry true u = .proceeds := by
  cases a <;> cases u <;>
    simp [catch_entry, install_if_not_installed]

/-- Claim C4: on an empty capture stack the chillpill hook delegates to
the previously captured hook with the original info and leaves the stack
untouched; on a non-empty stack it writes the reported location into the
top frame, leaves every other frame (and the other fields of the top
frame) unchanged, and does not invoke the previous hook. -/
theorem hook_behavior (info : PanicHookInfo) (f : CatchStackFrame)
    (r : List CatchStackFrame) :
    chillpill_panic_hook info [] = { stack := [], delegated := some info } ∧
    chillpill_panic_hook info (f :: r) =
      { stack := { f with location := info.location } :: r, delegated := none } :=
  ⟨rfl, rfl⟩

/-- Claim C5: when the closure panics inside a boundary call, the returned
failure record carries exactly the payload intercepted by catch_unwind and
exactly the location and backtrace fields of the frame this same call
pushed and then popped. -/
theorem fault_record_fields (policy : CaptureBacktrace) (f : Comp)
    (s : List CatchStackFrame) (p : Payload)
    (h : (run f (CatchStackFrame.new policy :: s)).2 = .panicked p) :
    ∃ frame rest, (run f (CatchStackFrame.new policy :: s)).1 = frame :: rest ∧
      catch_inner policy f s = (rest, some (.error
        { payload := p, location := frame.location, backtrace := frame.backtrace })) := by
  obtain ⟨h1, _⟩ := run_shape f (CatchStackFrame.new policy :: s)
  cases hr : run f (CatchStackFrame.new policy :: s) with
  | mk s2 o =>
    rw [hr] at h1 h
    have h1' : ShapeEq s2 (CatchStackFrame.new policy :: s) := h1
    obtain ⟨L, hL⟩ := shapeEq_cons_elim h1'
    subst hL
    have ho : o = .panicked p := h
    subst ho
    refine ⟨{ capture_backtrace := (CatchStackFrame.new policy).capture_backtrace,
              location := L,
              backtrace := (CatchStackFrame.new policy).backtrace }, s,
      by simp [hr], by simp [catch_inner, hr]⟩

/-- Witness for fault_record_fields at a concrete panicking closure. -/
theorem fault_record_fields_witness :
    (run (.raise (some { file := "main.rs", line := 3, col := 5 }) (.str "boom"))
        (CatchStackFrame.new .Default :: ([] : List CatchStackFrame))).2 =
      .panicked (.str "boom") ∧
    (∃ frame rest,
      (run (.raise (some { file := "main.rs", line := 3, col := 5 }) (.str "boom"))
          (CatchStackFrame.new .Default :: ([] : List CatchStackFrame))).1 = frame :: rest ∧
      catch_inner .Default
          (.raise (some { file := "main.rs", line := 3, col := 5 }) (.str "boom")) [] =
        (rest, some (.error { payload := .str "boom", location := frame.location,
                              backtrace := frame.backtrace }))) :=
  ⟨rfl, fault_record_fields .Default _ [] _ rfl⟩

/-- Claim C6: push and pop are LIFO-balanced around the closure: a
boundary call returns the ambient stack exactly as it found it, its pop
never finds the stack empty (the result is never none), the frame it pops
is the one it pushed (same policy, same untouched backtrace, only the
location possibly harvested), and a whole nested boundary leaves the
ambient stack, including the frames of every other depth, unchanged. -/
theorem lifo_attribution (policy : CaptureBacktrace) (f : Comp)
    (s : List CatchStackFrame) :
    (catch_inner policy f s).1 = s ∧
    (catch_inner policy f s).2 ≠ none ∧
    (∃ L, (run f (CatchStackFrame.new policy :: s)).1 =
      { capture_backtrace := policy, location := L,
        backtrace := Backtrace.disabled } :: s) ∧
    (run (Comp.chillCatch policy f) s).1 = s := by
  obtain ⟨h1, h2⟩ := run_shape f (CatchStackFrame.new policy :: s)
  cases hr : run f (CatchStackFrame.new policy :: s) with
  | mk s2 o =>
    rw [hr] at h1 h2
    have h1' : ShapeEq s2 (CatchStackFrame.new policy :: s) := h1
    have h2' : o ≠ .fatal := h2
    obtain ⟨L, hL⟩ := shapeEq_cons_elim h1'
    simp [CatchStackFrame.new] at hL
    subst hL
    cases o with
    | fatal => exact absurd rfl h2'
    | ok v =>
      exact ⟨by simp [catch_inner, hr], by simp [catch_inner, hr],
        ⟨L, by simp [hr, CatchStackFrame.new]⟩, by simp [run, hr]⟩
    | panicked p =>
      exact ⟨by simp [catch_inner, hr], by simp [catch_inner, hr],
        ⟨L, by simp [hr, CatchStackFrame.new]⟩, by simp [run, hr]⟩

/-- Claim C7: a closure that runs to completion has its value returned
unmodified as the success of the boundary call, for every policy. -/
theorem success_value_passthrough (policy : CaptureBacktrace) (f : Comp)
    (s : List CatchStackFrame) (v : Nat)
    (h : (run f (CatchStackFrame.new policy :: s)).2 = .ok v) :
    (catch_inner policy f s).2 = some (.ok v) := by
  obtain ⟨h1, _⟩ := run_shape f (CatchStackFrame.new policy :: s)
  cases hr : run f (CatchStackFrame.new policy :: s) with
  | mk s2 o =>
    rw [hr] at h1 h
    have h1' : ShapeEq s2 (CatchStackFrame.new policy :: s) := h1
    obtain ⟨L, hL⟩ := shapeEq_cons_elim h1'
    subst hL
    have ho : o = .ok v := h
    subst ho
    simp [catch_inner, hr]

/-- Witness for success_value_passthrough at a concrete closure returning
the value 4. -/
theorem success_value_passthrough_witness :
    (run (.ret 4) (CatchStackFrame.new .Default :: ([] : List CatchStackFrame))).2 = .ok 4 ∧
    (catch_inner .Default (.ret 4) []).2 = some (.ok 4) :=
  ⟨rfl, success_value_passthrough .Default (.ret 4) [] 4 rfl⟩

/-- Claim C8: payload_as_string succeeds exactly on str-reference and
String payloads, yielding exactly that text, and returns None otherwise;
payload_into_string succeeds on exactly the same payloads (borrowed for a
str reference, owned for a String) and fails on every other payload. -/
theorem payload_string_exact (d : PanicData) (s : String) :
    (d.payload_as_string = some s ↔ (d.payload = .str s ∨ d.payload = .string s)) ∧
    (d.payload_as_string = none ↔ ∃ tag, d.payload = .other tag) ∧
    (d.payload_into_string = .ok (.borrowed s) ↔ d.payload = .str s) ∧
    (d.payload_into_string = .ok (.owned s) ↔ d.payload = .string s) ∧
    ((∃ e, d.payload_into_string = .error e) ↔ ∃ tag, d.payload = .other tag) := by
  rcases d with ⟨p, loc, bt⟩
  cases p <;>
    simp [PanicData.payload_as_string, PanicData.payload_into_string]

/-- Claim C9: on a payload that is neither a str reference nor a String,
payload_into_string returns the original record unchanged as the error:
same payload, same location, same backtrace. -/
theorem payload_into_string_returns_self (tag : Nat) (loc : Option PanicLocation)
    (bt : Backtrace) :
    PanicData.payload_into_string { payload := .other tag, location := loc, backtrace := bt } =
      .error { payload := .other tag, location := loc, backtrace := bt } :=
  rfl

/-- Claim C10: incrementing the count of threads concurrently inside a
boundary is checked: while the count is below usize MAX the increment
succeeds and only the count changes, and on overflow the process is
aborted (none) instead of the count wrapping. -/
theorem add_thread_checked_increment (g : GlobalHookState) (prev : Hook) (n : Nat)
    (h : g.status = .Replaced prev n) :
    add_chillpill_thread g =
      if n + 1 ≤ USIZE_MAX then some { g with status := .Replaced prev (n + 1) }
      else none := by
  rcases g with ⟨inst, st⟩
  have h' : st = .Replaced prev n := h
  subst h'
  by_cases hle : n + 1 ≤ USIZE_MAX <;>
    simp [add_chillpill_thread, checkedAddOne, hle]

/-- Witness for add_thread_checked_increment at a concrete replaced state
with five counted threads. -/
theorem add_thread_checked_increment_witness :
    add_chillpill_thread { installed := .other 0, status := .Replaced (.other 0) 5 } =
      if 5 + 1 ≤ USIZE_MAX then
        some { installed := Hook.other 0, status := .Replaced (.other 0) 6 }
      else none :=
  add_thread_checked_increment
    { installed := .other 0, status := .Replaced (.other 0) 5 } (.other 0) 5 rfl

end Chillpill
